import Mathlib

/-!
Shallow embedding of the tinywasm/server lifecycle supervisor.

The repository holds two overlapping drafts of the same package:
a handler-level draft (goserver.go, StartServer.go, NewFileEvent.go,
server_handler.go) in which `ServerHandler` itself owns the compiler and
runner, and a strategy-pattern draft (strategies.go, unnamed/part_001) in
which an `externalStrategy` / `inMemoryStrategy` pair implements a
`ServerStrategy` interface.  Both drafts are embedded here; definitions
carry the names of the Go functions they translate.

External collaborators (the Go compiler, the process runner `gorun`, the
`text/template` engine, the `devflow` markdown extractor, the filesystem)
are modelled as explicit inputs: each is an `Option String` / function
parameter holding the error outcome (or behaviour) of the collaborator
call, so every theorem quantifies over all collaborator behaviours.
-/

namespace TinywasmServer

/-! ## Filesystem model

A filesystem is a finite map from paths to file contents; `fsWrite`
prepends so the newest binding wins in `fsLookup` (os.WriteFile truncates
and replaces).  `joinPath` models `path.Join` / `filepath.Join` on the
already-clean path fragments the package uses. -/

abbrev FS := List (String × String)

def fsLookup (fs : FS) (p : String) : Option String :=
  match fs.find? (fun e => e.1 == p) with
  | some e => some e.2
  | none => none

def fsWrite (fs : FS) (p c : String) : FS := (p, c) :: fs

def joinPath (a b : String) : String := a ++ "/" ++ b

/-! ## Generator (generator.go)

`serverTemplateData` is the fixed template record.  The `text/template`
engine is opaque to the package, so it enters as a `TemplateEngine`:
`parseErr md` is the error `template.New("server").Parse(md)` reports
(`none` on success), and `execRes md data` is the outcome of
`tmpl.Execute` on the parsed template.  The `devflow` extractor together
with the `writer` callback is one function `extract : String → Except
String String`, `.ok c` meaning extraction succeeded and wrote content
`c` to the target path, `.error e` meaning `m.Extract` failed. -/

structure serverTemplateData where
  AppPort : String
  PublicDir : String
deriving Repr, DecidableEq

structure TemplateEngine where
  parseErr : String → Option String
  execRes : String → serverTemplateData → Except String String

/-- Go `(h *ServerHandler) processTemplate` (generator.go:77-89): on a
parse error or an execute error it logs and returns the ORIGINAL
markdown together with the error; on success it returns the substituted
output and no error. -/
def processTemplate (eng : TemplateEngine) (markdown : String)
    (data : serverTemplateData) : String × Option String :=
  match eng.parseErr markdown with
  | some e => (markdown, some e)
  | none =>
    match eng.execRes markdown data with
    | .error e => (markdown, some e)
    | .ok out => (out, none)

/-- Extraction-plus-write step of `generateServerFromEmbeddedMarkdown`
(generator.go:55-71): `m.Extract` either fails (error wrapped with
"extracting go code from markdown: ") or writes the extracted content to
the target path. -/
def extractAndWrite (extract : String → Except String String)
    (fs : FS) (targetPath content : String) : FS × Option String :=
  match extract content with
  | .error e => (fs, some ("extracting go code from markdown: " ++ e))
  | .ok extracted => (fsWrite fs targetPath extracted, none)

/-- Go `(h *ServerHandler) generateServerFromEmbeddedMarkdown`
(generator.go:24-75).  `embeddedDoc` is the result of
`embeddedFS.ReadFile "templates/server_basic.md"` (`none` = read error,
falling back to the empty string).  If the target path already exists
the function skips and returns `none` (nil error); otherwise it runs the
template (falling back to the unprocessed document on template error)
and extracts/writes. -/
def generateServerFromEmbeddedMarkdown (eng : TemplateEngine)
    (extract : String → Except String String) (fs : FS)
    (targetPath : String) (embeddedDoc : Option String)
    (data : serverTemplateData) : FS × Option String :=
  match fsLookup fs targetPath with
  | some _ => (fs, none)
  | none =>
    let embeddedContent := embeddedDoc.getD ""
    let pr := processTemplate eng embeddedContent data
    let content := match pr.2 with
      | some _ => embeddedContent
      | none => pr.1
    extractAndWrite extract fs targetPath content

/-! ## Compile / run / stop sequencing (StartServer.go, server_handler.go,
strategies.go)

The compiler (`gobuild.CompileProgram`) and runner (`gorun.RunProgram`,
`gorun.StopProgram`) are collaborators; each call outcome is an
`Option String` input (`some msg` = the call failed with error message
`msg`, `none` = success).  `PEvent` records which collaborator calls are
performed and in which order; `Go.errJoin` models `errors.Join`, whose
`Error()` joins the constituent messages with a newline. -/

inductive PEvent
  | stop
  | sleepPause
  | compile
  | run
deriving Repr, DecidableEq

def Go.errJoin (a b : String) : String := a ++ "\n" ++ b

/-- Boolean test that `needle` occurs as a contiguous sublist of the
second argument. -/
def listIsInfixOf (needle : List Char) : List Char → Bool
  | [] => needle.isEmpty
  | c :: t => needle.isPrefixOf (c :: t) || listIsInfixOf needle t

/-- Go `strings.Contains s sub`. -/
def strContains (s sub : String) : Bool := listIsInfixOf sub.toList s.toList

/-- Go `startServer` (StartServer.go:49-68 on the handler, identical body
as `externalStrategy.startServer` in strategies.go:207-224): ALWAYS
compile first; on compile failure return `errors.Join(startServer, err)`
without running; otherwise run, propagating a run failure the same way.
Result: (ordered trace of collaborator calls, returned error). -/
def startServer (compileRes runRes : Option String) :
    List PEvent × Option String :=
  match compileRes with
  | some e => ([.compile], some (Go.errJoin "startServer" e))
  | none =>
    match runRes with
    | some e => ([.compile, .run], some (Go.errJoin "startServer" e))
    | none => ([.compile, .run], none)

/-- Go `(h *ServerHandler) RestartServer` (server_handler.go:8-41):
stop the running program; on stop failure return the wrapped error.
Then sleep 100ms (grace pause), compile (failure returned, run not
attempted), then run. -/
def RestartServer (stopRes compileRes runRes : Option String) :
    List PEvent × Option String :=
  match stopRes with
  | some e =>
    ([.stop], some (Go.errJoin (Go.errJoin "RestartServer" "stop server") e))
  | none =>
    match compileRes with
    | some e =>
      ([.stop, .sleepPause, .compile],
        some (Go.errJoin (Go.errJoin "RestartServer" "compile server") e))
    | none =>
      match runRes with
      | some e =>
        ([.stop, .sleepPause, .compile, .run],
          some (Go.errJoin (Go.errJoin "RestartServer" "run server") e))
      | none => ([.stop, .sleepPause, .compile, .run], none)

/-- Go `(s *externalStrategy) Restart` (strategies.go:255-276): it calls
`s.startServer()` (compile then run, no stop, no pause).  On error it
logs the error unless the message contains "signal: killed" or
"signal: interrupt", and returns the error in every case.  Result:
(trace, whether the error was written to the log, returned error). -/
def externalStrategy.Restart (compileRes runRes : Option String) :
    List PEvent × Bool × Option String :=
  let r := startServer compileRes runRes
  match r.2 with
  | none => (r.1, false, none)
  | some msg =>
    let shouldIgnore :=
      strContains msg "signal: killed" || strContains msg "signal: interrupt"
    (r.1, !shouldIgnore, some msg)

/-! ## File-event dispatch (NewFileEvent.go, strategies.go)

`FEAction` is the action a handler takes on an event: trigger the
restart path, trigger a plain start (compile and run), or do nothing and
return nil. -/

inductive FEAction
  | restartAct
  | startAct
  | noop
deriving Repr, DecidableEq

/-- Go `(h *ServerHandler) NewFileEvent` (NewFileEvent.go:4-29): a
"write" event (any file name) calls `h.RestartServer()`; a "create"
event whose file name equals `h.mainFileExternalServer` calls
`h.startServer()`; every other event returns nil with no action. -/
def NewFileEvent (mainFileExternalServer fileName _extension _filePath
    event : String) : FEAction :=
  if event = "write" then .restartAct
  else if event = "create" ∧ fileName = mainFileExternalServer then .startAct
  else .noop

/-- Go `(s *externalStrategy) HandleFileEvent` (strategies.go:278-290):
a "write" event calls `s.Restart()`; EVERY other event (including
"create") returns nil with no action. -/
def externalStrategy.HandleFileEvent (_fileName _extension _filePath
    event : String) : FEAction :=
  if event = "write" then .restartAct else .noop

/-! ## Constructor and configuration defaulting (server_handler.go,
unnamed/part_001)

Both drafts default empty configuration fields from `NewConfig` the same
way; they differ in how the initial strategy is chosen.  Only the fields
that feed the strategy decision are modelled (the function-valued and
channel fields play no role in it). -/

inductive StrategyKind
  | inMemoryKind
  | externalKind
deriving Repr, DecidableEq

structure Config where
  AppRootDir : String
  SourceDir : String
  OutputDir : String
  PublicDir : String
  MainInputFile : String
  AppPort : String
deriving Repr, DecidableEq

/-- Go `NewConfig` (server_handler.go:510-524): the default configuration. -/
def NewConfig : Config :=
  { AppRootDir := "."
    SourceDir := "web"
    OutputDir := "web"
    PublicDir := "web/public"
    MainInputFile := "main.go"
    AppPort := "8080" }

/-- Defaulting prelude shared by both `New` drafts: each zero-value
(empty) field is replaced by its `NewConfig` default. -/
def applyDefaults (c : Config) : Config :=
  { AppRootDir := if c.AppRootDir = "" then NewConfig.AppRootDir else c.AppRootDir
    SourceDir := if c.SourceDir = "" then NewConfig.SourceDir else c.SourceDir
    OutputDir := if c.OutputDir = "" then NewConfig.OutputDir else c.OutputDir
    PublicDir := if c.PublicDir = "" then NewConfig.PublicDir else c.PublicDir
    MainInputFile := if c.MainInputFile = "" then NewConfig.MainInputFile else c.MainInputFile
    AppPort := if c.AppPort = "" then NewConfig.AppPort else c.AppPort }

/-- Path `filepath.Join(AppRootDir, SourceDir, mainFileExternalServer)`
of the external server source file for a (defaulted) configuration. -/
def mainFilePath (c : Config) : String :=
  joinPath (joinPath c.AppRootDir c.SourceDir) c.MainInputFile

/-- Go `New` (server_handler.go:526-588): after defaulting, stat
`filepath.Join(AppRootDir, SourceDir, mainFileExternalServer)`; if the
file exists select the External Process strategy with `inMemory = false`,
otherwise the In-Memory strategy with `inMemory = true`.  Result:
(`inMemory` flag, concrete strategy kind). -/
def New (fs : FS) (c : Config) : Bool × StrategyKind :=
  if (fsLookup fs (mainFilePath (applyDefaults c))).isSome then
    (false, .externalKind)
  else (true, .inMemoryKind)

/-- Go `New` in the strategy draft (unnamed/part_001:44-93): after the
same defaulting it UNCONDITIONALLY selects the In-Memory strategy with
`inMemory = true`; the filesystem is never consulted. -/
def New_part001 (_fs : FS) (_c : Config) : Bool × StrategyKind :=
  (true, .inMemoryKind)

/-! ## Supervisor state machine (unnamed/part_001, generator.go,
strategies.go)

`SupState` is the observable supervisor state: the `inMemory` flag, the
kind of the strategy object held in `h.strategy`, whether the in-memory
HTTP server is running, and whether an external child process is
running.  `Collab` fixes the outcomes of the collaborator calls a mode
switch can make.  `SwEvent` records the strategy calls a switch
performs, in order. -/

structure SupState where
  inMemory : Bool
  strategy : StrategyKind
  inMemRunning : Bool
  childRunning : Bool
deriving Repr, DecidableEq

structure Collab where
  shutdownErr : Option String
  compileErr : Option String
  runErr : Option String
  generateErr : Option String
deriving Repr, DecidableEq

inductive SwEvent
  | stopOld
  | generateFiles
  | constructNew
  | startNew
deriving Repr, DecidableEq

/-- Go `(s *inMemoryStrategy) Stop` (strategies.go:106-122): a no-op
returning nil when not running; otherwise `http.Server.Shutdown` with a
5s timeout, after which the strategy is marked stopped even if Shutdown
returned an error, and that error is returned. -/
def inMemoryStrategy.Stop (c : Collab) (st : SupState) :
    SupState × Option String :=
  if st.inMemRunning then ({ st with inMemRunning := false }, c.shutdownErr)
  else (st, none)

/-- Go `(s *externalStrategy) Stop` (strategies.go:226-253): the body is
only comments; it changes nothing and returns nil — in particular it
never signals or kills the running child process. -/
def externalStrategy.Stop (st : SupState) : SupState × Option String :=
  (st, none)

/-- Go `(s *externalStrategy) Start` / `startServer` effect on the
supervisor state (strategies.go:198-224): compile then run; the child is
running afterwards only if both succeed, and a failure is returned
wrapped as in `startServer`. -/
def externalStrategy.Start (c : Collab) (st : SupState) :
    SupState × Option String :=
  match c.compileErr with
  | some e => (st, some (Go.errJoin "startServer" e))
  | none =>
    match c.runErr with
    | some e => (st, some (Go.errJoin "startServer" e))
    | none => ({ st with childRunning := true }, none)

/-- Go `(s *inMemoryStrategy) Start` effect on the supervisor state
(strategies.go:47-104): returns nil immediately if already running,
otherwise marks the in-memory listener running (it then blocks on the
exit channel; the blocking itself is outside this state model). -/
def inMemoryStrategy.Start (st : SupState) : SupState × Option String :=
  if st.inMemRunning then (st, none)
  else ({ st with inMemRunning := true }, none)

/-- Go `(h *ServerHandler) SetExternalServerMode` (unnamed/part_001:
137-156).  The Go function returns nothing, so the third component (what
the caller receives) is always `none`; the errors of `Stop` and `Start`
are computed and discarded, exactly as the source discards them.  When
already in the requested mode nothing happens.  Otherwise: flip the
flag, stop the OLD strategy, replace it, start the new one. -/
def SetExternalServerMode (c : Collab) (st : SupState) (external : Bool) :
    SupState × List SwEvent × Option String :=
  if external then
    if st.inMemory then
      let st1 := { st with inMemory := false }
      let st2 := (inMemoryStrategy.Stop c st1).1
      let st3 := { st2 with strategy := .externalKind }
      let st4 := (externalStrategy.Start c st3).1
      (st4, [.stopOld, .constructNew, .startNew], none)
    else (st, [], none)
  else
    if !st.inMemory then
      let st1 := { st with inMemory := true }
      let st2 := (externalStrategy.Stop st1).1
      let st3 := { st2 with strategy := .inMemoryKind }
      let st4 := (inMemoryStrategy.Start st3).1
      (st4, [.stopOld, .constructNew, .startNew], none)
    else (st, [], none)

/-- Go `(h *ServerHandler) CreateTemplateServer` (generator.go:97-143):
a no-op returning nil when already external; otherwise stop the
in-memory strategy (failure returned, wrapped), generate the server
files (failure returned, wrapped), flip the flag and install the
external strategy, start it (failure returned, wrapped).  Result:
(final state, trace of strategy calls, error returned to the caller). -/
def CreateTemplateServer (c : Collab) (st : SupState) :
    SupState × List SwEvent × Option String :=
  if !st.inMemory then (st, [], none)
  else
    let r1 := inMemoryStrategy.Stop c st
    match r1.2 with
    | some e =>
      (r1.1, [.stopOld], some (Go.errJoin "failed to stop in-memory server" e))
    | none =>
      match c.generateErr with
      | some e =>
        (r1.1, [.stopOld, .generateFiles],
          some (Go.errJoin "failed to generate server files" e))
      | none =>
        let st2 := { r1.1 with inMemory := false, strategy := .externalKind }
        let r2 := externalStrategy.Start c st2
        match r2.2 with
        | some e =>
          (r2.1, [.stopOld, .generateFiles, .constructNew, .startNew],
            some (Go.errJoin "failed to start external server" e))
        | none =>
          (r2.1, [.stopOld, .generateFiles, .constructNew, .startNew], none)

/-! ## Claim theorems -/

/-- Claim C1: for every pre-existing file at the target path (whatever
its content, including empty), `generateServerFromEmbeddedMarkdown`
returns success (nil error) and the filesystem — in particular the
target file's content — is byte-for-byte unchanged. -/
theorem C1_generate_never_overwrites
    (eng : TemplateEngine) (extract : String → Except String String)
    (fs : FS) (targetPath : String) (embeddedDoc : Option String)
    (data : serverTemplateData) (c0 : String)
    (h : fsLookup fs targetPath = some c0) :
    generateServerFromEmbeddedMarkdown eng extract fs targetPath embeddedDoc data
      = (fs, none)
    ∧ fsLookup (generateServerFromEmbeddedMarkdown eng extract fs targetPath
        embeddedDoc data).1 targetPath = some c0 := by
  constructor
  · simp [generateServerFromEmbeddedMarkdown, h]
  · simp [generateServerFromEmbeddedMarkdown, h]

/-- Claim C1 witness: a concrete pre-existing empty file survives a
`generateServerFromEmbeddedMarkdown` call untouched with a nil error. -/
theorem C1_generate_never_overwrites_witness :
    generateServerFromEmbeddedMarkdown
      ⟨fun _ => none, fun s _ => .ok s⟩ (fun s => .ok s)
      [("r/s/m.go", "")] "r/s/m.go" (some "doc") ⟨"8080", "web/public"⟩
      = ([("r/s/m.go", "")], none)
    ∧ fsLookup (generateServerFromEmbeddedMarkdown
        ⟨fun _ => none, fun s _ => .ok s⟩ (fun s => .ok s)
        [("r/s/m.go", "")] "r/s/m.go" (some "doc") ⟨"8080", "web/public"⟩).1
        "r/s/m.go" = some "" :=
  C1_generate_never_overwrites _ _ _ _ _ _ "" (by decide)

/-- Claim C2: when template parsing or substitution fails,
`processTemplate` returns the ORIGINAL markdown together with the error,
and `generateServerFromEmbeddedMarkdown` proceeds with that unprocessed
document: its outcome is exactly the extraction/write outcome on the raw
embedded document, so the template error is never propagated to the
caller (the error is only logged inside `processTemplate`). -/
theorem C2_template_error_fallback_not_propagated
    (eng : TemplateEngine) (extract : String → Except String String)
    (fs : FS) (targetPath : String) (embeddedDoc : Option String)
    (data : serverTemplateData) (md e : String) :
    (eng.parseErr md = some e → processTemplate eng md data = (md, some e))
    ∧ (eng.parseErr md = none → eng.execRes md data = .error e →
        processTemplate eng md data = (md, some e))
    ∧ ((processTemplate eng (embeddedDoc.getD "") data).2 ≠ none →
        fsLookup fs targetPath = none →
        generateServerFromEmbeddedMarkdown eng extract fs targetPath
          embeddedDoc data
          = extractAndWrite extract fs targetPath (embeddedDoc.getD "")) := by
  refine ⟨?_, ?_, ?_⟩
  · intro h
    simp [processTemplate, h]
  · intro h1 h2
    simp [processTemplate, h1, h2]
  · intro hterr habs
    cases hpr : (processTemplate eng (embeddedDoc.getD "") data).2 with
    | none => exact absurd hpr hterr
    | some e2 => simp [generateServerFromEmbeddedMarkdown, habs, hpr]

/-- Claim C2 witness: with a concretely failing parser the template
error "parse boom" appears in `processTemplate`'s result but generation
reduces to extraction of the raw document (and here succeeds). -/
theorem C2_template_error_fallback_not_propagated_witness :
    processTemplate ⟨fun _ => some "parse boom", fun s _ => .ok s⟩ "D"
      ⟨"8080", "web/public"⟩ = ("D", some "parse boom")
    ∧ generateServerFromEmbeddedMarkdown
        ⟨fun _ => some "parse boom", fun s _ => .ok s⟩ (fun s => .ok s)
        [] "t" (some "D") ⟨"8080", "web/public"⟩
        = extractAndWrite (fun s => .ok s) [] "t" "D" :=
  ⟨(C2_template_error_fallback_not_propagated
      ⟨fun _ => some "parse boom", fun s _ => .ok s⟩ (fun s => .ok s)
      [] "t" (some "D") ⟨"8080", "web/public"⟩ "D" "parse boom").1 rfl,
    (C2_template_error_fallback_not_propagated
      ⟨fun _ => some "parse boom", fun s _ => .ok s⟩ (fun s => .ok s)
      [] "t" (some "D") ⟨"8080", "web/public"⟩ "D" "parse boom").2.2
      (by simp [processTemplate]) rfl⟩

/-- Claim C7: `startServer` (handler draft and externalStrategy draft
share the same body) always compiles first — its trace begins with the
compile call and is either compile alone or compile-then-run — and on a
compile failure the run step is absent and the wrapped compile error is
returned. -/
theorem C7_start_compiles_before_run
    (compileRes runRes : Option String) (e : String) :
    (startServer compileRes runRes).1.head? = some PEvent.compile
    ∧ ((startServer compileRes runRes).1 = [PEvent.compile]
        ∨ (startServer compileRes runRes).1 = [PEvent.compile, PEvent.run])
    ∧ (startServer (some e) runRes).1 = [PEvent.compile]
    ∧ PEvent.run ∉ (startServer (some e) runRes).1
    ∧ (startServer (some e) runRes).2 = some (Go.errJoin "startServer" e) := by
  refine ⟨?_, ?_, rfl, by simp [startServer], rfl⟩
  · cases compileRes <;> cases runRes <;> rfl
  · cases compileRes <;> cases runRes <;> simp [startServer]

/-- Claim C3 counterexample: with a successful compile and run,
`externalStrategy.Restart` (strategies.go:255-276) performs exactly
compile-then-run — it never stops the running child process and never
performs a grace pause, contradicting the claimed
stop → pause → recompile → relaunch sequence. -/
theorem C3_external_restart_never_stops_counterexample :
    (externalStrategy.Restart none none).1 = [PEvent.compile, PEvent.run]
    ∧ PEvent.stop ∉ (externalStrategy.Restart none none).1
    ∧ PEvent.sleepPause ∉ (externalStrategy.Restart none none).1 := by
  refine ⟨rfl, by decide, by decide⟩

/-- Claim C3 (amended): the stop → grace-pause → recompile → relaunch
sequence is performed by `ServerHandler.RestartServer`
(server_handler.go:8-41): its trace always begins with the stop call,
the success path is exactly stop, pause, compile, run in order, and on a
compile failure no run is attempted, the wrapped compile error is
returned, and the trace shows the previous process was already stopped.
`externalStrategy.Restart` (strategies.go:255-276) instead performs no
stop and no pause; on compile failure it returns the compile error with
no run attempted. -/
theorem C3_restart_sequencing
    (stopRes compileRes runRes : Option String) (e : String) :
    (RestartServer stopRes compileRes runRes).1.head? = some PEvent.stop
    ∧ (RestartServer none none none).1
        = [PEvent.stop, PEvent.sleepPause, PEvent.compile, PEvent.run]
    ∧ (RestartServer none (some e) runRes).1
        = [PEvent.stop, PEvent.sleepPause, PEvent.compile]
    ∧ PEvent.run ∉ (RestartServer none (some e) runRes).1
    ∧ (RestartServer none (some e) runRes).2
        = some (Go.errJoin (Go.errJoin "RestartServer" "compile server") e)
    ∧ PEvent.stop ∉ (externalStrategy.Restart compileRes runRes).1
    ∧ PEvent.sleepPause ∉ (externalStrategy.Restart compileRes runRes).1
    ∧ (externalStrategy.Restart (some e) runRes).1 = [PEvent.compile]
    ∧ PEvent.run ∉ (externalStrategy.Restart (some e) runRes).1
    ∧ (externalStrategy.Restart (some e) runRes).2.2
        = some (Go.errJoin "startServer" e) := by
  refine ⟨?_, rfl, rfl, by simp [RestartServer], rfl, ?_, ?_, rfl,
    by simp [externalStrategy.Restart, startServer], rfl⟩
  · cases stopRes <;> cases compileRes <;> cases runRes <;> rfl
  · cases compileRes <;> cases runRes <;>
      simp [externalStrategy.Restart, startServer]
  · cases compileRes <;> cases runRes <;>
      simp [externalStrategy.Restart, startServer]

/-- Claim C4 counterexample: a "create" event for the main source file
delivered to `externalStrategy.HandleFileEvent` (strategies.go:278-290)
returns success with no action — it does NOT trigger a plain Start as
the claim states (there is no create branch in that handler; the create
branch exists only in `ServerHandler.NewFileEvent`). -/
theorem C4_external_create_event_counterexample :
    externalStrategy.HandleFileEvent "main.go" ".go" "src/app/main.go" "create"
      = FEAction.noop
    ∧ FEAction.noop ≠ FEAction.startAct
    ∧ NewFileEvent "main.go" "main.go" ".go" "src/app/main.go" "create"
      = FEAction.startAct := by
  refine ⟨rfl, by decide, by decide⟩

/-- Claim C4 (amended): a "write" event always triggers Restart in both
`ServerHandler.NewFileEvent` and `externalStrategy.HandleFileEvent`; the
clause "a create event whose file name equals the configured main source
file triggers a plain Start" holds of `ServerHandler.NewFileEvent` only
— `externalStrategy.HandleFileEvent` returns success without side
effects for every non-write event, create included.  Every other event
is a no-op returning success in both handlers. -/
theorem C4_file_event_dispatch
    (mainFile fileName ext fp event : String) :
    NewFileEvent mainFile fileName ext fp "write" = FEAction.restartAct
    ∧ NewFileEvent mainFile mainFile ext fp "create" = FEAction.startAct
    ∧ (fileName ≠ mainFile →
        NewFileEvent mainFile fileName ext fp "create" = FEAction.noop)
    ∧ (event ≠ "write" → event ≠ "create" →
        NewFileEvent mainFile fileName ext fp event = FEAction.noop)
    ∧ externalStrategy.HandleFileEvent fileName ext fp "write"
        = FEAction.restartAct
    ∧ (event ≠ "write" →
        externalStrategy.HandleFileEvent fileName ext fp event
          = FEAction.noop) := by
  refine ⟨by simp [NewFileEvent], by simp [NewFileEvent], ?_, ?_, rfl, ?_⟩
  · intro h
    simp [NewFileEvent, h]
  · intro h1 h2
    simp [NewFileEvent, h1, h2]
  · intro h
    simp [externalStrategy.HandleFileEvent, h]

/-- Claim C4 witness: a "create" for a non-main file and a "remove"
event are no-ops for the respective handlers. -/
theorem C4_file_event_dispatch_witness :
    NewFileEvent "main.go" "other.go" ".go" "p" "create" = FEAction.noop
    ∧ externalStrategy.HandleFileEvent "other.go" ".go" "p" "remove"
      = FEAction.noop :=
  ⟨(C4_file_event_dispatch "main.go" "other.go" ".go" "p" "remove").2.2.1
      (by decide),
    (C4_file_event_dispatch "main.go" "other.go" ".go" "p" "remove").2.2.2.2.2
      (by decide)⟩

/-- Claim C5 counterexample: on a filesystem where the target source
file exists, `New` from server_handler.go selects the External strategy
as claimed, but the `New` draft in unnamed/part_001 still returns the
In-Memory strategy with `inMemory = true` — it never consults the
filesystem, so the claim fails for that constructor. -/
theorem C5_new_part001_counterexample :
    (fsLookup [("/tmp/app/src/app/main.go", "package main")]
        (mainFilePath (applyDefaults
          ⟨"/tmp/app", "src/app", "deploy", "public", "main.go", "9090"⟩))).isSome
      = true
    ∧ New [("/tmp/app/src/app/main.go", "package main")]
        ⟨"/tmp/app", "src/app", "deploy", "public", "main.go", "9090"⟩
        = (false, StrategyKind.externalKind)
    ∧ New_part001 [("/tmp/app/src/app/main.go", "package main")]
        ⟨"/tmp/app", "src/app", "deploy", "public", "main.go", "9090"⟩
        = (true, StrategyKind.inMemoryKind) := by
  refine ⟨by decide, by decide, rfl⟩

/-- Claim C5 (amended): `New` in server_handler.go selects the initial
strategy by testing existence of root/sourceDir/mainFileName (after
defaulting the configuration): External Process with `inMemory = false`
when the file exists, In-Memory with `inMemory = true` otherwise, the
flag always agreeing with the strategy kind.  The `New` draft in
unnamed/part_001 instead always selects the In-Memory strategy
(flag agreeing) regardless of the filesystem. -/
theorem C5_new_strategy_selection (fs : FS) (c : Config) :
    ((fsLookup fs (mainFilePath (applyDefaults c))).isSome = true →
      New fs c = (false, StrategyKind.externalKind))
    ∧ ((fsLookup fs (mainFilePath (applyDefaults c))).isSome = false →
      New fs c = (true, StrategyKind.inMemoryKind))
    ∧ ((New fs c).1 = true ↔ (New fs c).2 = StrategyKind.inMemoryKind)
    ∧ New_part001 fs c = (true, StrategyKind.inMemoryKind) := by
  refine ⟨?_, ?_, ?_, rfl⟩
  · intro h
    simp [New, h]
  · intro h
    simp [New, h]
  · cases h : (fsLookup fs (mainFilePath (applyDefaults c))).isSome <;>
      simp [New, h]

/-- Claim C5 witness: an all-empty configuration defaults to
"./web/main.go"; with that file present `New` picks External, and the
part_001 draft picks In-Memory on an empty filesystem. -/
theorem C5_new_strategy_selection_witness :
    New [("./web/main.go", "x")] ⟨"", "", "", "", "", ""⟩
      = (false, StrategyKind.externalKind)
    ∧ New_part001 [] ⟨"", "", "", "", "", ""⟩
      = (true, StrategyKind.inMemoryKind) :=
  ⟨(C5_new_strategy_selection [("./web/main.go", "x")]
      ⟨"", "", "", "", "", ""⟩).1 (by decide),
    (C5_new_strategy_selection [] ⟨"", "", "", "", "", ""⟩).2.2.2⟩

/-- Claim C8: every error produced by `externalStrategy.Restart` is
returned to the caller, and it is written to the log exactly when its
message does NOT contain one of the benign termination-signal variants
"signal: killed" / "signal: interrupt".  The three result cases (compile
failure, run failure, success) are characterized exhaustively: the
logged flag is the negation of the benign-substring test on the returned
message, and the error is returned in both failure cases. -/
theorem C8_benign_signals_filtered_from_log (rr : Option String) (e : String) :
    (externalStrategy.Restart (some e) rr).2
      = (!(strContains (Go.errJoin "startServer" e) "signal: killed"
            || strContains (Go.errJoin "startServer" e) "signal: interrupt"),
        some (Go.errJoin "startServer" e))
    ∧ (externalStrategy.Restart none (some e)).2
      = (!(strContains (Go.errJoin "startServer" e) "signal: killed"
            || strContains (Go.errJoin "startServer" e) "signal: interrupt"),
        some (Go.errJoin "startServer" e))
    ∧ (externalStrategy.Restart none none).2 = (false, none) := by
  exact ⟨rfl, rfl, rfl⟩

/-- Claim C6: a mode switch is a no-op returning success when the
supervisor is already in the requested mode (`SetExternalServerMode`
changes nothing; `CreateTemplateServer` returns nil), and otherwise the
trace of strategy calls is stop-old, construct-new, start-new in that
order — the old strategy's Stop call completes before the new
strategy's Start begins, the embedding being sequential — with the final
flag and strategy kind agreeing with the requested mode.
`CreateTemplateServer`'s trace likewise always begins with the stop of
the old strategy. -/
theorem C6_setmode_noop_and_stop_before_start (c : Collab) (st : SupState) :
    (st.inMemory = false → SetExternalServerMode c st true = (st, [], none))
    ∧ (st.inMemory = true → SetExternalServerMode c st false = (st, [], none))
    ∧ (st.inMemory = true →
        (SetExternalServerMode c st true).2.1
          = [SwEvent.stopOld, SwEvent.constructNew, SwEvent.startNew]
        ∧ (SetExternalServerMode c st true).1.inMemory = false
        ∧ (SetExternalServerMode c st true).1.strategy
            = StrategyKind.externalKind)
    ∧ (st.inMemory = false →
        (SetExternalServerMode c st false).2.1
          = [SwEvent.stopOld, SwEvent.constructNew, SwEvent.startNew]
        ∧ (SetExternalServerMode c st false).1.inMemory = true
        ∧ (SetExternalServerMode c st false).1.strategy
            = StrategyKind.inMemoryKind)
    ∧ (st.inMemory = false → CreateTemplateServer c st = (st, [], none))
    ∧ (st.inMemory = true →
        (CreateTemplateServer c st).2.1.head? = some SwEvent.stopOld) := by
  refine ⟨?_, ?_, ?_, ?_, ?_, ?_⟩
  · intro h
    simp [SetExternalServerMode, h]
  · intro h
    simp [SetExternalServerMode, h]
  · intro h
    cases hm : st.inMemRunning <;> cases hc : c.compileErr <;>
      cases hr : c.runErr <;>
      simp [SetExternalServerMode, h, inMemoryStrategy.Stop,
        externalStrategy.Start, hm, hc, hr]
  · intro h
    cases hm : st.inMemRunning <;>
      simp [SetExternalServerMode, h, externalStrategy.Stop,
        inMemoryStrategy.Start, hm]
  · intro h
    simp [CreateTemplateServer, h]
  · intro h
    simp only [CreateTemplateServer, h, Bool.not_true, Bool.false_eq_true,
      if_false]
    cases hm : st.inMemRunning <;>
      cases hs : c.shutdownErr <;>
      cases hg : c.generateErr <;>
      cases hc : c.compileErr <;>
      cases hr : c.runErr <;>
      simp [inMemoryStrategy.Stop, externalStrategy.Start, hm, hs, hg, hc, hr]

/-- Claim C6 witness: with all collaborator calls succeeding, switching
to external mode from a running in-memory state already in external mode
is a no-op, and from in-memory state the trace is stop, construct,
start. -/
theorem C6_setmode_noop_and_stop_before_start_witness :
    SetExternalServerMode ⟨none, none, none, none⟩
      ⟨false, StrategyKind.externalKind, false, true⟩ true
      = (⟨false, StrategyKind.externalKind, false, true⟩, [], none)
    ∧ (SetExternalServerMode ⟨none, none, none, none⟩
        ⟨true, StrategyKind.inMemoryKind, true, false⟩ true).2.1
      = [SwEvent.stopOld, SwEvent.constructNew, SwEvent.startNew] :=
  ⟨(C6_setmode_noop_and_stop_before_start ⟨none, none, none, none⟩
      ⟨false, StrategyKind.externalKind, false, true⟩).1 rfl,
    ((C6_setmode_noop_and_stop_before_start ⟨none, none, none, none⟩
      ⟨true, StrategyKind.inMemoryKind, true, false⟩).2.2.1 rfl).1⟩

/-- Claim C9 counterexample: during `SetExternalServerMode(true)` from
in-memory mode, the Stop call made on the old strategy fails (the state
it is invoked on is exactly the post-flag-flip state of that run), yet
the caller receives nothing: the Go function has no return value and
discards the Stop and Start errors, so the failure is swallowed, not
returned. -/
theorem C9_setmode_swallows_failures_counterexample :
    (inMemoryStrategy.Stop ⟨some "shutdown failed", none, none, none⟩
        ⟨false, StrategyKind.inMemoryKind, true, false⟩).2
      = some "shutdown failed"
    ∧ (SetExternalServerMode ⟨some "shutdown failed", none, none, none⟩
        ⟨true, StrategyKind.inMemoryKind, true, false⟩ true).2.2 = none := by
  exact ⟨rfl, rfl⟩

/-- Claim C9 (amended): for mode switches via `CreateTemplateServer`,
stop and start failures ARE returned to the caller (wrapped), and after
a start failure the mode flag reflects the attempted new mode
(external) with the external strategy installed — but after a stop
failure the flag still reflects the old mode.  Mode switches via
`SetExternalServerMode` never return a failure — the Stop and Start
errors are discarded — though the flag afterwards always reflects the
attempted new mode. -/
theorem C9_mode_switch_failure_reporting (c : Collab) (st : SupState)
    (e : String) :
    (st.inMemory = true → st.inMemRunning = true → c.shutdownErr = some e →
      (CreateTemplateServer c st).2.2
        = some (Go.errJoin "failed to stop in-memory server" e)
      ∧ (CreateTemplateServer c st).1.inMemory = true)
    ∧ (st.inMemory = true → (inMemoryStrategy.Stop c st).2 = none →
        c.generateErr = none → c.compileErr = some e →
        (CreateTemplateServer c st).2.2
          = some (Go.errJoin "failed to start external server"
              (Go.errJoin "startServer" e))
        ∧ (CreateTemplateServer c st).1.inMemory = false
        ∧ (CreateTemplateServer c st).1.strategy = StrategyKind.externalKind)
    ∧ (SetExternalServerMode c st true).2.2 = none
    ∧ (st.inMemory = true →
        (SetExternalServerMode c st true).1.inMemory = false) := by
  refine ⟨?_, ?_, ?_, ?_⟩
  · intro h hm hs
    simp [CreateTemplateServer, h, inMemoryStrategy.Stop, hm, hs]
  · intro h hstop hg hc
    simp [CreateTemplateServer, h, hstop, hg, externalStrategy.Start, hc]
  · cases h : st.inMemory <;> simp [SetExternalServerMode, h]
  · intro h
    cases hm : st.inMemRunning <;> cases hc : c.compileErr <;>
      cases hr : c.runErr <;>
      simp [SetExternalServerMode, h, inMemoryStrategy.Stop,
        externalStrategy.Start, hm, hc, hr]

/-- Claim C9 witness: a concrete failing stop during
`CreateTemplateServer` is returned wrapped (flag still in-memory), and a
concrete compile failure during its start step leaves the flag at the
attempted external mode. -/
theorem C9_mode_switch_failure_reporting_witness :
    (CreateTemplateServer ⟨some "shutdown failed", none, none, none⟩
        ⟨true, StrategyKind.inMemoryKind, true, false⟩).2.2
      = some (Go.errJoin "failed to stop in-memory server" "shutdown failed")
    ∧ (CreateTemplateServer ⟨none, some "compile failed", none, none⟩
        ⟨true, StrategyKind.inMemoryKind, true, false⟩).1.inMemory = false :=
  ⟨((C9_mode_switch_failure_reporting
      ⟨some "shutdown failed", none, none, none⟩
      ⟨true, StrategyKind.inMemoryKind, true, false⟩ "shutdown failed").1
      rfl rfl rfl).1,
    ((C9_mode_switch_failure_reporting
      ⟨none, some "compile failed", none, none⟩
      ⟨true, StrategyKind.inMemoryKind, true, false⟩ "compile failed").2.1
      rfl rfl rfl rfl).2.1⟩

/-- Claim C10: `externalStrategy.Stop` always returns nil and leaves the
state unchanged — it never terminates the running child process — and
consequently a mode switch away from external mode
(`SetExternalServerMode false`) completes (trace stop, construct,
start) with the child process still in whatever running state it had
before the switch. -/
theorem C10_external_stop_noop (st : SupState) (c : Collab) :
    externalStrategy.Stop st = (st, none)
    ∧ (st.inMemory = false →
        (SetExternalServerMode c st false).1.childRunning = st.childRunning
        ∧ (SetExternalServerMode c st false).2.1
          = [SwEvent.stopOld, SwEvent.constructNew, SwEvent.startNew]) := by
  refine ⟨rfl, ?_⟩
  intro h
  cases hm : st.inMemRunning <;>
    simp [SetExternalServerMode, h, externalStrategy.Stop,
      inMemoryStrategy.Start, hm]

/-- Claim C10 witness: switching a running external child to in-memory
mode leaves the child flagged as still running. -/
theorem C10_external_stop_noop_witness :
    (SetExternalServerMode ⟨none, none, none, none⟩
        ⟨false, StrategyKind.externalKind, false, true⟩ false).1.childRunning
      = true :=
  ((C10_external_stop_noop ⟨false, StrategyKind.externalKind, false, true⟩
      ⟨none, none, none, none⟩).2 rfl).1.trans rfl

end TinywasmServer
